import Mathlib

/-!
Shallow embedding of the image conversion engine of this repository
(`src/app/src/lib/convert.ts` and `src/app/src/lib/utils.ts`).

JavaScript strings are modelled as lists of characters, JavaScript numbers as
rationals (every arithmetic operation performed by the embedded code is exact
on the inputs considered), ECMAScript `Math.round` as round-half-up and
`Math.floor` as the floor.  The asynchronous browser environment (file
reader, bitmap decoder, canvas encoder) is modelled as an explicit record of
oracles, and the pipeline additionally returns the list of effects it
performed, so that passthrough properties ("no decode, no re-encode") become
statable.
-/

set_option maxRecDepth 10000

deriving instance DecidableEq for Except

attribute [local semireducible] Rat.mul Rat.inv Rat.add Rat.sub Rat.ofScientific

namespace PicMe

/-- JavaScript strings, modelled as lists of characters. -/
abbrev JStr := List Char

/-- The test `s.startsWith p` on JavaScript strings. -/
def strStartsWith : JStr → JStr → Bool
  | _, [] => true
  | [], _ :: _ => false
  | c :: s, d :: p => c = d && strStartsWith s p

/-- The test `s.endsWith p` on JavaScript strings. -/
def strEndsWith (s p : JStr) : Bool :=
  strStartsWith s.reverse p.reverse

/-- Index of the first occurrence of `c` in a JavaScript string
(`indexOf`, with `none` standing for `-1`). -/
def firstIdx? (c : Char) : JStr → Option ℕ
  | [] => none
  | d :: s => if d = c then some 0 else (firstIdx? c s).map (· + 1)

/-- The JavaScript idiom `m || 'application/octet-stream'`
(the empty string is falsy). -/
def orOctetStream (m : JStr) : JStr :=
  if m = [] then "application/octet-stream".data else m

/-- The JavaScript test `!target` on an optional string: absent or empty. -/
def isFalsyStr (t : Option JStr) : Prop :=
  t = none ∨ t = some []

instance (t : Option JStr) : Decidable (isFalsyStr t) := by
  unfold isFalsyStr; infer_instance

/-- `normalizeTargetMime` from `src/app/src/lib/utils.ts`. -/
def normalizeTargetMime (originalMime : JStr) (target : Option JStr) : JStr :=
  if isFalsyStr target ∨ target = some "original".data ∨ target = some "base64".data then
    orOctetStream originalMime
  else if target = some "png".data then "image/png".data
  else if target = some "jpeg".data then "image/jpeg".data
  else if target = some "webp".data then "image/webp".data
  else if target = some "svg".data then "image/svg+xml".data
  else orOctetStream originalMime

/-- Padding count of a base64 remainder, as computed inline by
`estimateBase64SizeBytes`: `2` for a trailing `"=="`, `1` for a single
trailing `"="`, `0` otherwise. -/
def padCount (base64 : JStr) : ℤ :=
  if strEndsWith base64 "==".data then 2
  else if strEndsWith base64 "=".data then 1
  else 0

/-- `estimateBase64SizeBytes` from `src/app/src/lib/utils.ts`: strip
everything up to and including the first comma (keep the whole string when
there is none), then `Math.floor(length * 3 / 4)` minus the padding count. -/
def estimateBase64SizeBytes (dataUrl : JStr) : ℤ :=
  let base64 :=
    match firstIdx? ',' dataUrl with
    | some i => dataUrl.drop (i + 1)
    | none => dataUrl
  ((base64.length * 3 / 4 : ℕ) : ℤ) - padCount base64

/-- ECMAScript `Math.round`: the nearest integer, half towards `+∞`. -/
def jsRound (x : ℚ) : ℚ := ((⌊x + 1 / 2⌋ : ℤ) : ℚ)

/-- ECMAScript `Math.floor`. -/
def jsFloor (x : ℚ) : ℚ := ((⌊x⌋ : ℤ) : ℚ)

/-- The `FitMode` type from `src/app/src/lib/utils.ts`. -/
inductive FitMode
  | contain
  | cover
deriving DecidableEq

/-- The geometry record returned by `computeResize`: output dimensions and
the source sampling rectangle. -/
structure Geometry where
  width : ℚ
  height : ℚ
  sx : ℚ
  sy : ℚ
  sWidth : ℚ
  sHeight : ℚ
deriving DecidableEq

/-- `computeResize` from `src/app/src/lib/utils.ts`. -/
def computeResize (srcWidth srcHeight : ℚ) (maxWidth maxHeight : Option ℚ)
    (fit : FitMode) : Geometry :=
  let sourceAspect := srcWidth / srcHeight
  let targetMaxWidth := maxWidth.getD srcWidth
  let targetMaxHeight := maxHeight.getD srcHeight
  if fit = FitMode.contain then
    let scale := min (min (targetMaxWidth / srcWidth) (targetMaxHeight / srcHeight)) 1
    { width := jsRound (srcWidth * scale), height := jsRound (srcHeight * scale),
      sx := 0, sy := 0, sWidth := srcWidth, sHeight := srcHeight }
  else
    let targetAspect := targetMaxWidth / targetMaxHeight
    let sWidth := if sourceAspect > targetAspect then jsRound (srcHeight * targetAspect) else srcWidth
    let sHeight := if sourceAspect > targetAspect then srcHeight else jsRound (srcWidth / targetAspect)
    { width := targetMaxWidth, height := targetMaxHeight,
      sx := jsFloor ((srcWidth - sWidth) / 2), sy := jsFloor ((srcHeight - sHeight) / 2),
      sWidth := sWidth, sHeight := sHeight }

/-- `isSvgMime` from `src/app/src/lib/utils.ts`. -/
def isSvgMime (mime : JStr) : Prop :=
  mime = "image/svg+xml".data ∨ mime = "image/svg".data

instance (m : JStr) : Decidable (isSvgMime m) := by
  unfold isSvgMime; infer_instance

/-- `extractMimeFromDataUrl` from `src/app/src/lib/convert.ts`:
`slice(5, semi)` when the url starts with `"data:"` and the first `';'`
sits strictly after position `5`, otherwise a generic octet-stream type. -/
def extractMimeFromDataUrl (dataUrl : JStr) : JStr :=
  match firstIdx? ';' dataUrl with
  | some semi =>
      if strStartsWith dataUrl "data:".data ∧ 5 < semi then
        (dataUrl.drop 5).take (semi - 5)
      else "application/octet-stream".data
  | none => "application/octet-stream".data

/-- `clampCanvasMime` from `src/app/src/lib/convert.ts`. -/
def clampCanvasMime (requested : JStr) : JStr :=
  if requested = "image/jpeg".data ∨ requested = "image/webp".data then requested
  else "image/png".data

/-- The resize sub-record of `ConvertOptions` (`src/app/src/types`). -/
structure ResizeOptions where
  maxWidth : Option ℚ := none
  maxHeight : Option ℚ := none
  fit : Option FitMode := none
deriving DecidableEq

/-- `ConvertOptions` (`src/app/src/types`). -/
structure ConvertOptions where
  targetFormat : Option JStr := none
  quality : Option ℚ := none
  resize : Option ResizeOptions := none
  background : Option JStr := none
deriving DecidableEq

/-- `ConvertResult` (`src/app/src/types`): `width`/`height` are present only
when a render pass occurred. -/
structure ConvertResult where
  dataUrl : JStr
  mime : JStr
  sizeBytes : ℤ
  width : Option ℚ := none
  height : Option ℚ := none
  fileName : JStr
deriving DecidableEq

/-- A decoded bitmap: only its dimensions are observed by the pipeline. -/
structure Bitmap where
  width : ℚ
  height : ℚ
deriving DecidableEq

/-- The input `File`: its name and declared mime type. -/
structure JsFile where
  name : JStr
  type : JStr
deriving DecidableEq

/-- Observable effects of one conversion run: reading the raw file as a data
url, the primary and fallback bitmap decodes, compositing the background,
drawing the sampled region, and serializing the canvas at a mime/quality. -/
inductive Effect
  | readDataUrl
  | decodePrimary
  | decodeFallback
  | fillBackground (color : JStr)
  | drawImage (sx sy sWidth sHeight dWidth dHeight : ℚ)
  | encode (mime : JStr) (quality : ℚ)
deriving DecidableEq

/-- The browser environment, as oracles: the data-url reading of the input
file, the primary decode (`createImageBitmap`), DOM availability, the
image-element fallback decode, and the canvas encoder
(`canvasToDataURL`, keyed by mime type and quality). -/
structure Env (ε : Type) where
  fileDataUrl : JStr
  decodePrimary : Except ε Bitmap
  domAvailable : Bool
  decodeFallback : Except ε Bitmap
  encode : JStr → ℚ → JStr

/-- The canvas render-and-encode tail of `convertFileToBase64`
(`src/app/src/lib/convert.ts`): compute the geometry, composite a background
only for jpeg, draw the sampled region, encode at the clamped mime and the
quality (default `0.92`), and package the result with the output
dimensions. -/
def renderPath {ε : Type} (env : Env ε) (file : JsFile) (options : ConvertOptions)
    (bitmap : Bitmap) (pre : List Effect) : Except ε ConvertResult × List Effect :=
  let originalMime := orOctetStream file.type
  let targetMimeRequested := normalizeTargetMime originalMime options.targetFormat
  let fit := (options.resize.bind (·.fit)).getD FitMode.contain
  let g := computeResize bitmap.width bitmap.height (options.resize.bind (·.maxWidth))
    (options.resize.bind (·.maxHeight)) fit
  let requestedCanvasMime := clampCanvasMime targetMimeRequested
  let backgroundFx :=
    if requestedCanvasMime = "image/jpeg".data then
      [Effect.fillBackground (options.background.getD "#ffffff".data)]
    else []
  let quality := options.quality.getD 0.92
  let dataUrl := env.encode requestedCanvasMime quality
  (Except.ok
    { dataUrl := dataUrl, mime := extractMimeFromDataUrl dataUrl,
      sizeBytes := estimateBase64SizeBytes dataUrl,
      width := some g.width, height := some g.height, fileName := file.name },
   pre ++ backgroundFx ++
     [Effect.drawImage g.sx g.sy g.sWidth g.sHeight g.width g.height,
      Effect.encode requestedCanvasMime quality])

/-- The shared shape of the two passthrough returns of `convertFileToBase64`:
read the file as a data url and package it unchanged, with no output
dimensions. -/
def passthroughPair {ε : Type} (env : Env ε) (file : JsFile) :
    Except ε ConvertResult × List Effect :=
  (Except.ok
    { dataUrl := env.fileDataUrl, mime := extractMimeFromDataUrl env.fileDataUrl,
      sizeBytes := estimateBase64SizeBytes env.fileDataUrl, fileName := file.name },
   [Effect.readDataUrl])

/-- `convertFileToBase64` from `src/app/src/lib/convert.ts`: the SVG
passthrough branch, the raw passthrough branch, and the render path with the
primary/fallback decode. -/
def convertFileToBase64 {ε : Type} (env : Env ε) (file : JsFile)
    (options : ConvertOptions) : Except ε ConvertResult × List Effect :=
  let originalMime := orOctetStream file.type
  let targetMimeRequested := normalizeTargetMime originalMime options.targetFormat
  if isSvgMime originalMime ∧
      (options.targetFormat = some "svg".data ∨ options.targetFormat = some "original".data ∨
        options.targetFormat = some "base64".data ∨ isFalsyStr options.targetFormat) then
    passthroughPair env file
  else if (options.targetFormat = some "original".data ∨ options.targetFormat = some "base64".data ∨
        (isFalsyStr options.targetFormat ∧ strStartsWith originalMime "image/".data)) ∧
      ¬(options.resize.isSome = true ∨ targetMimeRequested = "image/jpeg".data) then
    passthroughPair env file
  else
    match env.decodePrimary with
    | Except.error err =>
        if env.domAvailable = false then (Except.error err, [Effect.decodePrimary])
        else
          match env.decodeFallback with
          | Except.error err2 =>
              (Except.error err2, [Effect.decodePrimary, Effect.decodeFallback])
          | Except.ok bitmap =>
              renderPath env file options bitmap [Effect.decodePrimary, Effect.decodeFallback]
    | Except.ok bitmap => renderPath env file options bitmap [Effect.decodePrimary]

/-! ### Basic facts about the rounding helpers -/

theorem jsRound_nonneg {x : ℚ} (hx : 0 ≤ x) : 0 ≤ jsRound x := by
  unfold jsRound
  have h : (0 : ℤ) ≤ ⌊x + 1 / 2⌋ := Int.floor_nonneg.mpr (by linarith)
  exact_mod_cast h

theorem jsRound_le_natCast {x : ℚ} {n : ℕ} (h : x ≤ (n : ℚ)) : jsRound x ≤ (n : ℚ) := by
  unfold jsRound
  have h1 : ⌊x + 1 / 2⌋ < (n : ℤ) + 1 := by
    apply Int.floor_lt.mpr
    push_cast
    linarith
  have h2 : ⌊x + 1 / 2⌋ ≤ (n : ℤ) := by omega
  exact_mod_cast h2

theorem jsFloor_nonneg {x : ℚ} (hx : 0 ≤ x) : 0 ≤ jsFloor x := by
  unfold jsFloor
  have h : (0 : ℤ) ≤ ⌊x⌋ := Int.floor_nonneg.mpr hx
  exact_mod_cast h

theorem jsFloor_le (x : ℚ) : jsFloor x ≤ x := Int.floor_le x

theorem jsFloor_zero : jsFloor 0 = 0 := by
  unfold jsFloor
  norm_num

/-- Centered crop offset: floored half of the slack is nonnegative and keeps
the crop inside the axis. -/
theorem centered_offset {w s : ℚ} (h0 : 0 ≤ s) (h1 : s ≤ w) :
    0 ≤ jsFloor ((w - s) / 2) ∧ jsFloor ((w - s) / 2) + s ≤ w := by
  constructor
  · exact jsFloor_nonneg (by linarith)
  · have h2 : jsFloor ((w - s) / 2) ≤ (w - s) / 2 := jsFloor_le _
    linarith

/-! ### Case equations for `computeResize` -/

theorem computeResize_contain (W H : ℚ) (mW mH : Option ℚ) :
    computeResize W H mW mH FitMode.contain =
      { width := jsRound (W * min (min (mW.getD W / W) (mH.getD H / H)) 1),
        height := jsRound (H * min (min (mW.getD W / W) (mH.getD H / H)) 1),
        sx := 0, sy := 0, sWidth := W, sHeight := H } := rfl

theorem computeResize_cover (W H : ℚ) (mW mH : Option ℚ) :
    computeResize W H mW mH FitMode.cover =
      { width := mW.getD W, height := mH.getD H,
        sx := jsFloor ((W - (if W / H > mW.getD W / mH.getD H then
          jsRound (H * (mW.getD W / mH.getD H)) else W)) / 2),
        sy := jsFloor ((H - (if W / H > mW.getD W / mH.getD H then H else
          jsRound (W / (mW.getD W / mH.getD H)))) / 2),
        sWidth := if W / H > mW.getD W / mH.getD H then
          jsRound (H * (mW.getD W / mH.getD H)) else W,
        sHeight := if W / H > mW.getD W / mH.getD H then H else
          jsRound (W / (mW.getD W / mH.getD H)) } := rfl

theorem getD_map_natCast (o : Option ℕ) (d : ℕ) :
    (o.map fun n => (n : ℚ)).getD (d : ℚ) = ((o.getD d : ℕ) : ℚ) := by
  cases o <;> rfl


/-- Claim C2, amended: sampling rectangle containment, nonnegative outputs, and
outputs at least 1 for cover fit. -/
theorem computeResize_sampling_within_bounds
    (srcW srcH : ℕ) (maxW maxH : Option ℕ) (fit : FitMode)
    (hW : 0 < srcW) (hH : 0 < srcH)
    (hmW : ∀ n, maxW = some n → 0 < n) (hmH : ∀ n, maxH = some n → 0 < n)
    (g : Geometry)
    (hg : g = computeResize (srcW : ℚ) (srcH : ℚ) (maxW.map fun n => (n : ℚ))
      (maxH.map fun n => (n : ℚ)) fit) :
    0 ≤ g.sx ∧ 0 ≤ g.sy ∧ 0 ≤ g.sWidth ∧ 0 ≤ g.sHeight ∧
      g.sx + g.sWidth ≤ (srcW : ℚ) ∧ g.sy + g.sHeight ≤ (srcH : ℚ) ∧
      0 ≤ g.width ∧ 0 ≤ g.height ∧
      (fit = FitMode.cover → 1 ≤ g.width ∧ 1 ≤ g.height) := by
  have hWq : (0 : ℚ) < srcW := by exact_mod_cast hW
  have hHq : (0 : ℚ) < srcH := by exact_mod_cast hH
  have htWn : 0 < maxW.getD srcW := by
    cases maxW with
    | none => simpa using hW
    | some n => simpa using hmW n rfl
  have htHn : 0 < maxH.getD srcH := by
    cases maxH with
    | none => simpa using hH
    | some n => simpa using hmH n rfl
  have htWq : (0 : ℚ) < ((maxW.getD srcW : ℕ) : ℚ) := by exact_mod_cast htWn
  have htHq : (0 : ℚ) < ((maxH.getD srcH : ℕ) : ℚ) := by exact_mod_cast htHn
  cases fit with
  | contain =>
    rw [computeResize_contain, getD_map_natCast, getD_map_natCast] at hg
    set scale : ℚ :=
      min (min (((maxW.getD srcW : ℕ) : ℚ) / srcW) (((maxH.getD srcH : ℕ) : ℚ) / srcH)) 1 with hsc
    have hsc0 : 0 ≤ scale :=
      le_min (le_min (by positivity) (by positivity)) (by norm_num)
    subst hg
    refine ⟨le_refl 0, le_refl 0, hWq.le, hHq.le, by simpa using hWq.le, by simpa using hHq.le,
      jsRound_nonneg (by positivity), jsRound_nonneg (by positivity), ?_⟩
    intro h
    exact absurd h (by decide)
  | cover =>
    rw [computeResize_cover, getD_map_natCast, getD_map_natCast] at hg
    set tW : ℚ := ((maxW.getD srcW : ℕ) : ℚ) with htW
    set tH : ℚ := ((maxH.getD srcH : ℕ) : ℚ) with htH
    have h1tW : 1 ≤ tW := by rw [htW]; exact_mod_cast htWn
    have h1tH : 1 ≤ tH := by rw [htH]; exact_mod_cast htHn
    by_cases hA : (srcW : ℚ) / srcH > tW / tH
    · -- source relatively wider: crop horizontally
      rw [if_pos hA, if_pos hA] at hg
      have h2 : tW * srcH < srcW * tH := (div_lt_div_iff₀ htHq hHq).mp hA
      have h3 : (srcH : ℚ) * (tW / tH) < srcW := by
        rw [mul_div_assoc']
        rw [div_lt_iff₀ htHq]
        nlinarith [h2]
      have h0sW : 0 ≤ jsRound ((srcH : ℚ) * (tW / tH)) :=
        jsRound_nonneg (by positivity)
      have hsWle : jsRound ((srcH : ℚ) * (tW / tH)) ≤ (srcW : ℚ) :=
        jsRound_le_natCast h3.le
      obtain ⟨hx0, hxw⟩ := centered_offset h0sW hsWle
      have hyzero : jsFloor (((srcH : ℚ) - srcH) / 2) = 0 := by
        rw [show ((srcH : ℚ) - srcH) / 2 = 0 by ring, jsFloor_zero]
      subst hg
      refine ⟨hx0, ?_, h0sW, hHq.le, hxw, ?_, by linarith, by linarith, fun _ => ⟨by linarith, by linarith⟩⟩
      · simp only [hyzero]; exact le_refl 0
      · simp only [hyzero]; linarith
    · -- source relatively taller: crop vertically
      rw [if_neg hA, if_neg hA] at hg
      have hA2 : (srcW : ℚ) / srcH ≤ tW / tH := not_lt.mp hA
      have h2 : (srcW : ℚ) * tH ≤ tW * srcH := (div_le_div_iff₀ hHq htHq).mp hA2
      have h3 : (srcW : ℚ) / (tW / tH) ≤ srcH := by
        rw [div_div_eq_mul_div]
        rw [div_le_iff₀ htWq]
        nlinarith [h2]
      have h0sH : 0 ≤ jsRound ((srcW : ℚ) / (tW / tH)) :=
        jsRound_nonneg (by positivity)
      have hsHle : jsRound ((srcW : ℚ) / (tW / tH)) ≤ (srcH : ℚ) :=
        jsRound_le_natCast h3
      obtain ⟨hy0, hyh⟩ := centered_offset h0sH hsHle
      have hxzero : jsFloor (((srcW : ℚ) - srcW) / 2) = 0 := by
        rw [show ((srcW : ℚ) - srcW) / 2 = 0 by ring, jsFloor_zero]
      subst hg
      refine ⟨?_, hy0, hWq.le, h0sH, ?_, hyh, by linarith, by linarith, fun _ => ⟨by linarith, by linarith⟩⟩
      · simp only [hxzero]; exact le_refl 0
      · simp only [hxzero]; linarith


/-- Claim C2, counterexample: a 1-by-1000 source with bounds 1000-by-1 under contain
fit yields output width 0, refuting "output dimensions are each at least 1". -/
theorem contain_output_width_zero :
    (computeResize 1 1000 (some 1000) (some 1) FitMode.contain).width = 0 ∧
      ¬(1 ≤ (computeResize 1 1000 (some 1000) (some 1) FitMode.contain).width) := by
  decide

/-- The cover-fit geometry of the running 4000-by-2000 example. -/
def coverWitnessGeometry : Geometry :=
  computeResize ((4000 : ℕ) : ℚ) ((2000 : ℕ) : ℚ)
    ((some 1000 : Option ℕ).map fun n => (n : ℚ))
    ((some 1000 : Option ℕ).map fun n => (n : ℚ)) FitMode.cover

/-- Witness for the containment theorem at the 4000-by-2000 cover example. -/
theorem computeResize_sampling_within_bounds_witness :
    0 ≤ coverWitnessGeometry.sx ∧ 0 ≤ coverWitnessGeometry.sy ∧
      0 ≤ coverWitnessGeometry.sWidth ∧ 0 ≤ coverWitnessGeometry.sHeight ∧
      coverWitnessGeometry.sx + coverWitnessGeometry.sWidth ≤ ((4000 : ℕ) : ℚ) ∧
      coverWitnessGeometry.sy + coverWitnessGeometry.sHeight ≤ ((2000 : ℕ) : ℚ) ∧
      0 ≤ coverWitnessGeometry.width ∧ 0 ≤ coverWitnessGeometry.height ∧
      (FitMode.cover = FitMode.cover →
        1 ≤ coverWitnessGeometry.width ∧ 1 ≤ coverWitnessGeometry.height) :=
  computeResize_sampling_within_bounds 4000 2000 (some 1000) (some 1000) FitMode.cover
    (by norm_num) (by norm_num) (fun n h => by injection h with h2; omega)
    (fun n h => by injection h with h2; omega) coverWitnessGeometry rfl

/-- Claim C3: contain fit follows the min-scale formula with the no-upscale ceiling,
keeps the full source as sampling rectangle, and the 4000-by-2000 example
yields 1000-by-500. -/
theorem computeResize_contain_formula :
    (∀ (srcW srcH : ℕ) (maxW maxH : Option ℕ), 0 < srcW → 0 < srcH →
      (∀ n, maxW = some n → 0 < n) → (∀ n, maxH = some n → 0 < n) →
      computeResize (srcW : ℚ) (srcH : ℚ) (maxW.map fun n => (n : ℚ))
          (maxH.map fun n => (n : ℚ)) FitMode.contain =
        { width := jsRound ((srcW : ℚ) *
            min (min (((maxW.getD srcW : ℕ) : ℚ) / srcW) (((maxH.getD srcH : ℕ) : ℚ) / srcH)) 1),
          height := jsRound ((srcH : ℚ) *
            min (min (((maxW.getD srcW : ℕ) : ℚ) / srcW) (((maxH.getD srcH : ℕ) : ℚ) / srcH)) 1),
          sx := 0, sy := 0, sWidth := (srcW : ℚ), sHeight := (srcH : ℚ) } ∧
      min (min (((maxW.getD srcW : ℕ) : ℚ) / srcW) (((maxH.getD srcH : ℕ) : ℚ) / srcH)) 1 ≤ 1 ∧
      (computeResize (srcW : ℚ) (srcH : ℚ) (maxW.map fun n => (n : ℚ))
          (maxH.map fun n => (n : ℚ)) FitMode.contain).width ≤ (srcW : ℚ) ∧
      (computeResize (srcW : ℚ) (srcH : ℚ) (maxW.map fun n => (n : ℚ))
          (maxH.map fun n => (n : ℚ)) FitMode.contain).height ≤ (srcH : ℚ)) ∧
    computeResize 4000 2000 (some 1000) (some 1000) FitMode.contain =
      { width := 1000, height := 500, sx := 0, sy := 0, sWidth := 4000, sHeight := 2000 } := by
  constructor
  · intro srcW srcH maxW maxH hW hH hmW hmH
    have hWq : (0 : ℚ) ≤ srcW := by positivity
    have hHq : (0 : ℚ) ≤ srcH := by positivity
    refine ⟨?_, min_le_right _ _, ?_, ?_⟩
    · rw [computeResize_contain, getD_map_natCast, getD_map_natCast]
    · rw [computeResize_contain, getD_map_natCast, getD_map_natCast]
      exact jsRound_le_natCast (mul_le_of_le_one_right hWq (min_le_right _ _))
    · rw [computeResize_contain, getD_map_natCast, getD_map_natCast]
      exact jsRound_le_natCast (mul_le_of_le_one_right hHq (min_le_right _ _))
  · decide

/-- The contain-fit geometry of the running 4000-by-2000 example, with the
casts of the universal statement. -/
def containWitnessGeometry : Geometry :=
  computeResize ((4000 : ℕ) : ℚ) ((2000 : ℕ) : ℚ)
    ((some 1000 : Option ℕ).map fun n => (n : ℚ))
    ((some 1000 : Option ℕ).map fun n => (n : ℚ)) FitMode.contain

/-- Witness for the contain-fit formula at the 4000-by-2000 example. -/
theorem computeResize_contain_formula_witness :
    containWitnessGeometry =
      { width := jsRound (((4000 : ℕ) : ℚ) *
          min (min ((((some 1000 : Option ℕ).getD 4000 : ℕ) : ℚ) / ((4000 : ℕ) : ℚ))
            ((((some 1000 : Option ℕ).getD 2000 : ℕ) : ℚ) / ((2000 : ℕ) : ℚ))) 1),
        height := jsRound (((2000 : ℕ) : ℚ) *
          min (min ((((some 1000 : Option ℕ).getD 4000 : ℕ) : ℚ) / ((4000 : ℕ) : ℚ))
            ((((some 1000 : Option ℕ).getD 2000 : ℕ) : ℚ) / ((2000 : ℕ) : ℚ))) 1),
        sx := 0, sy := 0, sWidth := ((4000 : ℕ) : ℚ), sHeight := ((2000 : ℕ) : ℚ) } ∧
      min (min ((((some 1000 : Option ℕ).getD 4000 : ℕ) : ℚ) / ((4000 : ℕ) : ℚ))
        ((((some 1000 : Option ℕ).getD 2000 : ℕ) : ℚ) / ((2000 : ℕ) : ℚ))) 1 ≤ 1 ∧
      containWitnessGeometry.width ≤ ((4000 : ℕ) : ℚ) ∧
      containWitnessGeometry.height ≤ ((2000 : ℕ) : ℚ) :=
  computeResize_contain_formula.1 4000 2000 (some 1000) (some 1000)
    (by norm_num) (by norm_num) (fun n h => by injection h with h2; omega)
    (fun n h => by injection h with h2; omega)

/-- Claim C4: cover fit outputs exactly the effective bounds and crops a centered
sub-rectangle of the target aspect; the 4000-by-2000 example yields output
1000-by-1000 sampled at (1000, 0, 2000, 2000). -/
theorem computeResize_cover_formula :
    (∀ (srcW srcH : ℕ) (maxW maxH : Option ℕ), 0 < srcW → 0 < srcH →
      (∀ n, maxW = some n → 0 < n) → (∀ n, maxH = some n → 0 < n) →
      computeResize (srcW : ℚ) (srcH : ℚ) (maxW.map fun n => (n : ℚ))
          (maxH.map fun n => (n : ℚ)) FitMode.cover =
        { width := ((maxW.getD srcW : ℕ) : ℚ), height := ((maxH.getD srcH : ℕ) : ℚ),
          sx := jsFloor (((srcW : ℚ) -
            (if (srcW : ℚ) / srcH > ((maxW.getD srcW : ℕ) : ℚ) / ((maxH.getD srcH : ℕ) : ℚ) then
              jsRound ((srcH : ℚ) * (((maxW.getD srcW : ℕ) : ℚ) / ((maxH.getD srcH : ℕ) : ℚ)))
            else (srcW : ℚ))) / 2),
          sy := jsFloor (((srcH : ℚ) -
            (if (srcW : ℚ) / srcH > ((maxW.getD srcW : ℕ) : ℚ) / ((maxH.getD srcH : ℕ) : ℚ) then
              (srcH : ℚ)
            else jsRound ((srcW : ℚ) / (((maxW.getD srcW : ℕ) : ℚ) / ((maxH.getD srcH : ℕ) : ℚ))))) / 2),
          sWidth :=
            if (srcW : ℚ) / srcH > ((maxW.getD srcW : ℕ) : ℚ) / ((maxH.getD srcH : ℕ) : ℚ) then
              jsRound ((srcH : ℚ) * (((maxW.getD srcW : ℕ) : ℚ) / ((maxH.getD srcH : ℕ) : ℚ)))
            else (srcW : ℚ),
          sHeight :=
            if (srcW : ℚ) / srcH > ((maxW.getD srcW : ℕ) : ℚ) / ((maxH.getD srcH : ℕ) : ℚ) then
              (srcH : ℚ)
            else jsRound ((srcW : ℚ) / (((maxW.getD srcW : ℕ) : ℚ) / ((maxH.getD srcH : ℕ) : ℚ))) }) ∧
    computeResize 4000 2000 (some 1000) (some 1000) FitMode.cover =
      { width := 1000, height := 1000, sx := 1000, sy := 0, sWidth := 2000, sHeight := 2000 } := by
  constructor
  · intro srcW srcH maxW maxH hW hH hmW hmH
    rw [computeResize_cover, getD_map_natCast, getD_map_natCast]
  · decide

/-- Witness for the cover-fit formula at a 300-by-100 source with no bounds. -/
theorem computeResize_cover_formula_witness :
    computeResize ((300 : ℕ) : ℚ) ((100 : ℕ) : ℚ)
        ((none : Option ℕ).map fun n => (n : ℚ)) ((none : Option ℕ).map fun n => (n : ℚ))
        FitMode.cover =
      { width := (((none : Option ℕ).getD 300 : ℕ) : ℚ),
        height := (((none : Option ℕ).getD 100 : ℕ) : ℚ),
        sx := jsFloor ((((300 : ℕ) : ℚ) -
          (if ((300 : ℕ) : ℚ) / ((100 : ℕ) : ℚ) >
              (((none : Option ℕ).getD 300 : ℕ) : ℚ) / (((none : Option ℕ).getD 100 : ℕ) : ℚ) then
            jsRound (((100 : ℕ) : ℚ) *
              ((((none : Option ℕ).getD 300 : ℕ) : ℚ) / (((none : Option ℕ).getD 100 : ℕ) : ℚ)))
          else ((300 : ℕ) : ℚ))) / 2),
        sy := jsFloor ((((100 : ℕ) : ℚ) -
          (if ((300 : ℕ) : ℚ) / ((100 : ℕ) : ℚ) >
              (((none : Option ℕ).getD 300 : ℕ) : ℚ) / (((none : Option ℕ).getD 100 : ℕ) : ℚ) then
            ((100 : ℕ) : ℚ)
          else jsRound (((300 : ℕ) : ℚ) /
            ((((none : Option ℕ).getD 300 : ℕ) : ℚ) / (((none : Option ℕ).getD 100 : ℕ) : ℚ))))) / 2),
        sWidth :=
          if ((300 : ℕ) : ℚ) / ((100 : ℕ) : ℚ) >
              (((none : Option ℕ).getD 300 : ℕ) : ℚ) / (((none : Option ℕ).getD 100 : ℕ) : ℚ) then
            jsRound (((100 : ℕ) : ℚ) *
              ((((none : Option ℕ).getD 300 : ℕ) : ℚ) / (((none : Option ℕ).getD 100 : ℕ) : ℚ)))
          else ((300 : ℕ) : ℚ),
        sHeight :=
          if ((300 : ℕ) : ℚ) / ((100 : ℕ) : ℚ) >
              (((none : Option ℕ).getD 300 : ℕ) : ℚ) / (((none : Option ℕ).getD 100 : ℕ) : ℚ) then
            ((100 : ℕ) : ℚ)
          else jsRound (((300 : ℕ) : ℚ) /
            ((((none : Option ℕ).getD 300 : ℕ) : ℚ) / (((none : Option ℕ).getD 100 : ℕ) : ℚ))) } :=
  computeResize_cover_formula.1 300 100 none none (by norm_num) (by norm_num)
    (fun n h => by injection h) (fun n h => by injection h)


/-! ### Facts about the string helpers -/

theorem firstIdx?_eq_none {c : Char} {s : JStr} (h : c ∉ s) : firstIdx? c s = none := by
  induction s with
  | nil => rfl
  | cons d t ih =>
    have hdc : ¬(d = c) := fun hh => h (hh ▸ List.mem_cons_self d t)
    simp [firstIdx?, if_neg hdc, ih (fun hm => h (List.mem_cons_of_mem d hm))]

theorem firstIdx?_append_cons {c : Char} {p : JStr} (r : JStr) (h : c ∉ p) :
    firstIdx? c (p ++ c :: r) = some p.length := by
  induction p with
  | nil => simp [firstIdx?]
  | cons d t ih =>
    have hdc : ¬(d = c) := fun hh => h (hh ▸ List.mem_cons_self d t)
    simp [firstIdx?, if_neg hdc, ih (fun hm => h (List.mem_cons_of_mem d hm))]

theorem drop_append_cons (p : JStr) (c : Char) (r : JStr) :
    (p ++ c :: r).drop (p.length + 1) = r := by
  have h : p ++ c :: r = (p ++ [c]) ++ r := by simp
  have hl : (p ++ [c]).length = p.length + 1 := by simp
  rw [h, ← hl, List.drop_left]

theorem strStartsWith_append (p s : JStr) : strStartsWith (p ++ s) p = true := by
  induction p with
  | nil => cases s <;> rfl
  | cons d t ih => simp [strStartsWith, ih]

/-- Claim C5: the size estimator strips everything up to and including the first
comma (whole string when none), and returns floor(3/4 length) minus the
padding count; a 100-character remainder gives 75, with one or two trailing
pad characters 74 and 73. -/
theorem estimateBase64SizeBytes_spec :
    (∀ p r : JStr, ',' ∉ p →
      estimateBase64SizeBytes (p ++ ',' :: r) = ((r.length * 3 / 4 : ℕ) : ℤ) - padCount r) ∧
    (∀ s : JStr, ',' ∉ s →
      estimateBase64SizeBytes s = ((s.length * 3 / 4 : ℕ) : ℤ) - padCount s) ∧
    estimateBase64SizeBytes (List.replicate 100 'A') = 75 ∧
    estimateBase64SizeBytes (List.replicate 99 'A' ++ ['=']) = 74 ∧
    estimateBase64SizeBytes (List.replicate 98 'A' ++ ['=', '=']) = 73 := by
  refine ⟨?_, ?_, by decide, by decide, by decide⟩
  · intro p r h
    unfold estimateBase64SizeBytes
    rw [firstIdx?_append_cons r h]
    simp only [drop_append_cons]
  · intro s h
    unfold estimateBase64SizeBytes
    rw [firstIdx?_eq_none h]

/-- Witness for the size estimator at a concrete data url. -/
theorem estimateBase64SizeBytes_spec_witness :
    estimateBase64SizeBytes ("data:image/png;base64".data ++ ',' :: List.replicate 100 'A') =
      (((List.replicate 100 'A').length * 3 / 4 : ℕ) : ℤ) - padCount (List.replicate 100 'A') :=
  estimateBase64SizeBytes_spec.1 "data:image/png;base64".data (List.replicate 100 'A')
    (by decide)


/-! ### Case analysis of the pipeline -/

/-- Every run of the pipeline is a passthrough, a decode failure (with or
without fallback), or a render on a successfully decoded bitmap. -/
theorem convert_cases {ε : Type} (env : Env ε) (file : JsFile) (options : ConvertOptions) :
    convertFileToBase64 env file options = passthroughPair env file ∨
    (∃ e, env.decodePrimary = Except.error e ∧ env.domAvailable = false ∧
      convertFileToBase64 env file options = (Except.error e, [Effect.decodePrimary])) ∨
    (∃ e e2, env.decodePrimary = Except.error e ∧ env.domAvailable = true ∧
      env.decodeFallback = Except.error e2 ∧
      convertFileToBase64 env file options =
        (Except.error e2, [Effect.decodePrimary, Effect.decodeFallback])) ∨
    (∃ bm, env.decodePrimary = Except.ok bm ∧
      convertFileToBase64 env file options =
        renderPath env file options bm [Effect.decodePrimary]) ∨
    (∃ e bm, env.decodePrimary = Except.error e ∧ env.domAvailable = true ∧
      env.decodeFallback = Except.ok bm ∧
      convertFileToBase64 env file options =
        renderPath env file options bm [Effect.decodePrimary, Effect.decodeFallback]) := by
  unfold convertFileToBase64
  by_cases h1 : isSvgMime (orOctetStream file.type) ∧
      (options.targetFormat = some "svg".data ∨ options.targetFormat = some "original".data ∨
        options.targetFormat = some "base64".data ∨ isFalsyStr options.targetFormat)
  · left
    rw [if_pos h1]
  · rw [if_neg h1]
    by_cases h2 : (options.targetFormat = some "original".data ∨
        options.targetFormat = some "base64".data ∨
        (isFalsyStr options.targetFormat ∧
          strStartsWith (orOctetStream file.type) "image/".data)) ∧
      ¬(options.resize.isSome = true ∨
        normalizeTargetMime (orOctetStream file.type) options.targetFormat = "image/jpeg".data)
    · left
      rw [if_pos h2]
    · rw [if_neg h2]
      rcases hd : env.decodePrimary with e | bm
      · cases hdom : env.domAvailable with
        | false =>
          right; left
          exact ⟨e, rfl, rfl, rfl⟩
        | true =>
          rcases hf : env.decodeFallback with e2 | bm
          · right; right; left
            exact ⟨e, e2, rfl, rfl, rfl, rfl⟩
          · right; right; right; right
            exact ⟨e, bm, rfl, rfl, rfl, rfl⟩
      · right; right; right; left
        exact ⟨bm, rfl, rfl⟩


/-- Encode effects inside a render only ever carry the clamped canvas mime. -/
theorem renderPath_encode_mime {ε : Type} {env : Env ε} {file : JsFile}
    {options : ConvertOptions} {bm : Bitmap} {pre : List Effect} {m : JStr} {q : ℚ}
    (hpre : ∀ q2, Effect.encode m q2 ∉ pre)
    (hmem : Effect.encode m q ∈ (renderPath env file options bm pre).2) :
    m = clampCanvasMime (normalizeTargetMime (orOctetStream file.type) options.targetFormat) := by
  unfold renderPath at hmem
  rcases List.mem_append.mp hmem with h | h
  · rcases List.mem_append.mp h with h2 | h2
    · exact absurd h2 (hpre q)
    · have hn : Effect.encode m q ∉
          (if clampCanvasMime (normalizeTargetMime (orOctetStream file.type)
              options.targetFormat) = "image/jpeg".data then
            [Effect.fillBackground (options.background.getD "#ffffff".data)]
          else []) := by
        split <;> simp
      exact absurd h2 hn
  · rcases List.mem_cons.mp h with h2 | h2
    · exact absurd h2 (by simp)
    · rcases List.mem_singleton.mp h2 with h3
      have h4 := Effect.encode.inj h3
      exact h4.1

/-- Claim C6: an SVG source with target unset, svg, base64 or original is returned
byte-identical as a passthrough: no decode, no render, no re-encode. -/
theorem svg_passthrough {ε : Type} (env : Env ε) (file : JsFile) (options : ConvertOptions)
    (hsvg : isSvgMime file.type)
    (htf : options.targetFormat = none ∨ options.targetFormat = some "svg".data ∨
      options.targetFormat = some "base64".data ∨ options.targetFormat = some "original".data) :
    convertFileToBase64 env file options =
      (Except.ok
        { dataUrl := env.fileDataUrl, mime := extractMimeFromDataUrl env.fileDataUrl,
          sizeBytes := estimateBase64SizeBytes env.fileDataUrl,
          width := none, height := none, fileName := file.name },
       [Effect.readDataUrl]) := by
  have horig : orOctetStream file.type = file.type := by
    rcases hsvg with h | h <;> simp [orOctetStream, h]
  unfold convertFileToBase64
  rw [if_pos]
  · rfl
  · refine ⟨by rwa [horig], ?_⟩
    rcases htf with h | h | h | h
    · exact Or.inr (Or.inr (Or.inr (Or.inl h)))
    · exact Or.inl h
    · exact Or.inr (Or.inr (Or.inl h))
    · exact Or.inr (Or.inl h)

/-- A concrete environment whose decode and encode oracles are benign. -/
def envSvgRun : Env ℕ where
  fileDataUrl := "data:image/svg+xml;base64,AA==".data
  decodePrimary := Except.ok ⟨4, 2⟩
  domAvailable := true
  decodeFallback := Except.ok ⟨4, 2⟩
  encode := fun _ _ => "data:image/png;base64,QQQQ".data

/-- A concrete SVG input file. -/
def fileSvg : JsFile := ⟨"img.svg".data, "image/svg+xml".data⟩

/-- Witness for the SVG passthrough at a concrete run. -/
theorem svg_passthrough_witness :
    convertFileToBase64 envSvgRun fileSvg {} =
      (Except.ok
        { dataUrl := envSvgRun.fileDataUrl, mime := extractMimeFromDataUrl envSvgRun.fileDataUrl,
          sizeBytes := estimateBase64SizeBytes envSvgRun.fileDataUrl,
          width := none, height := none, fileName := fileSvg.name },
       [Effect.readDataUrl]) :=
  svg_passthrough envSvgRun fileSvg {} (Or.inl rfl) (Or.inl rfl)

/-- Claim C7: the mime actually handed to the encoder is always the clamped one:
jpeg and webp pass through, everything else becomes png. -/
theorem encode_mime_clamped :
    (∀ (ε : Type) (env : Env ε) (file : JsFile) (options : ConvertOptions) (m : JStr) (q : ℚ),
      Effect.encode m q ∈ (convertFileToBase64 env file options).2 →
      m = clampCanvasMime (normalizeTargetMime (orOctetStream file.type) options.targetFormat)) ∧
    (∀ r : JStr,
      ((r = "image/jpeg".data ∨ r = "image/webp".data) → clampCanvasMime r = r) ∧
      (r ≠ "image/jpeg".data → r ≠ "image/webp".data → clampCanvasMime r = "image/png".data)) := by
  constructor
  · intro ε env file options m q hmem
    rcases convert_cases env file options with h | ⟨e, _, _, heq⟩ | ⟨e, e2, _, _, _, heq⟩ |
      ⟨bm, _, heq⟩ | ⟨e, bm, _, _, _, heq⟩
    · rw [h] at hmem; simp [passthroughPair] at hmem
    · rw [heq] at hmem; simp at hmem
    · rw [heq] at hmem; simp at hmem
    · rw [heq] at hmem
      exact renderPath_encode_mime (by intro q2; simp) hmem
    · rw [heq] at hmem
      exact renderPath_encode_mime (by intro q2; simp) hmem
  · intro r
    constructor
    · intro h
      unfold clampCanvasMime
      rw [if_pos h]
    · intro h1 h2
      unfold clampCanvasMime
      rw [if_neg (fun hc => hc.elim h1 h2)]

/-- A concrete environment for a webp render run. -/
def envWebpRun : Env ℕ where
  fileDataUrl := "data:image/png;base64,AAAA".data
  decodePrimary := Except.ok ⟨4, 2⟩
  domAvailable := true
  decodeFallback := Except.ok ⟨4, 2⟩
  encode := fun _ _ => "data:image/webp;base64,CCCC".data

/-- A concrete PNG input file. -/
def filePng : JsFile := ⟨"p.png".data, "image/png".data⟩

/-- Witness for the encoder-mime clamping at a concrete webp render. -/
theorem encode_mime_clamped_witness :
    "image/webp".data =
      clampCanvasMime (normalizeTargetMime (orOctetStream filePng.type)
        ({ targetFormat := some "webp".data } : ConvertOptions).targetFormat) :=
  encode_mime_clamped.1 ℕ envWebpRun filePng { targetFormat := some "webp".data }
    "image/webp".data 0.92 (by decide)

/-- Claim C9: when the primary decode fails and no DOM fallback exists, the run that
reaches the decoder fails with exactly that error. -/
theorem decode_error_propagates {ε : Type} (env : Env ε) (file : JsFile)
    (options : ConvertOptions) (e : ε)
    (hdec : env.decodePrimary = Except.error e) (hdom : env.domAvailable = false)
    (hrun : Effect.decodePrimary ∈ (convertFileToBase64 env file options).2) :
    (convertFileToBase64 env file options).1 = Except.error e := by
  rcases convert_cases env file options with h | ⟨e1, hd1, _, heq⟩ | ⟨e1, e2, _, hdom1, _, _⟩ |
    ⟨bm, hd1, _⟩ | ⟨e1, bm, _, hdom1, _, _⟩
  · rw [h] at hrun; simp [passthroughPair] at hrun
  · rw [hdec] at hd1
    have h2 := Except.error.inj hd1
    subst h2
    rw [heq]
  · rw [hdom1] at hdom; exact absurd hdom (by simp)
  · rw [hdec] at hd1; exact absurd hd1 (by simp)
  · rw [hdom1] at hdom; exact absurd hdom (by simp)

/-- A concrete headless environment whose primary decode fails. -/
def envDecodeFail : Env ℕ where
  fileDataUrl := "data:image/png;base64,AAAA".data
  decodePrimary := Except.error 7
  domAvailable := false
  decodeFallback := Except.error 8
  encode := fun _ _ => []

/-- Witness for the error propagation at a concrete failing run. -/
theorem decode_error_propagates_witness :
    (convertFileToBase64 envDecodeFail filePng { targetFormat := some "png".data }).1 =
      Except.error 7 :=
  decode_error_propagates envDecodeFail filePng { targetFormat := some "png".data } 7
    rfl rfl (by decide)

/-- Unfolding of `extractMimeFromDataUrl` when the first semicolon is known. -/
theorem extract_of_firstIdx_some {s : JStr} {i : ℕ} (h : firstIdx? ';' s = some i) :
    extractMimeFromDataUrl s =
      if strStartsWith s "data:".data ∧ 5 < i then (s.drop 5).take (i - 5)
      else "application/octet-stream".data := by
  unfold extractMimeFromDataUrl
  rw [h]

/-- Unfolding of `extractMimeFromDataUrl` when there is no semicolon. -/
theorem extract_of_firstIdx_none {s : JStr} (h : firstIdx? ';' s = none) :
    extractMimeFromDataUrl s = "application/octet-stream".data := by
  unfold extractMimeFromDataUrl
  rw [h]

/-- Claim C10: every successful result derives its mime from the produced payload
itself: the text between the data: prefix and the first semicolon, or an
octet-stream type when the payload carries no such header. -/
theorem result_mime_from_payload :
    (∀ (ε : Type) (env : Env ε) (file : JsFile) (options : ConvertOptions) (res : ConvertResult),
      (convertFileToBase64 env file options).1 = Except.ok res →
      res.mime = extractMimeFromDataUrl res.dataUrl) ∧
    (∀ p r : JStr, ';' ∉ p → p ≠ [] →
      extractMimeFromDataUrl ("data:".data ++ p ++ ';' :: r) = p) ∧
    (∀ s : JStr, ';' ∉ s → extractMimeFromDataUrl s = "application/octet-stream".data) ∧
    (∀ s : JStr, strStartsWith s "data:".data = false →
      extractMimeFromDataUrl s = "application/octet-stream".data) := by
  refine ⟨?_, ?_, ?_, ?_⟩
  · intro ε env file options res hok
    rcases convert_cases env file options with h | ⟨e, _, _, heq⟩ | ⟨e, e2, _, _, _, heq⟩ |
      ⟨bm, _, heq⟩ | ⟨e, bm, _, _, _, heq⟩
    · rw [h] at hok
      simp only [passthroughPair] at hok
      have h2 := Except.ok.inj hok
      rw [← h2]
    · rw [heq] at hok; exact absurd hok (by simp)
    · rw [heq] at hok; exact absurd hok (by simp)
    · rw [heq] at hok
      simp only [renderPath] at hok
      have h2 := Except.ok.inj hok
      rw [← h2]
    · rw [heq] at hok
      simp only [renderPath] at hok
      have h2 := Except.ok.inj hok
      rw [← h2]
  · intro p r hp hne
    have hnotin : ';' ∉ "data:".data ++ p := by
      intro hmem
      rcases List.mem_append.mp hmem with h | h
      · exact absurd h (by decide)
      · exact hp h
    have hfi : firstIdx? ';' ("data:".data ++ p ++ ';' :: r) = some (5 + p.length) := by
      rw [firstIdx?_append_cons r hnotin, List.length_append]
      rfl
    rw [extract_of_firstIdx_some hfi]
    have hlp : 0 < p.length := List.length_pos.mpr hne
    rw [if_pos ⟨by rw [List.append_assoc]; exact strStartsWith_append _ _, by omega⟩]
    have h5 : ("data:".data : JStr).length = 5 := rfl
    have hdrop : ("data:".data ++ p ++ ';' :: r).drop 5 = p ++ ';' :: r := by
      rw [List.append_assoc, ← h5]
      exact List.drop_left _ _
    have htake : 5 + p.length - 5 = p.length := by omega
    rw [hdrop, htake, List.take_left]
  · intro s h
    exact extract_of_firstIdx_none (firstIdx?_eq_none h)
  · intro s h
    cases hfi : firstIdx? ';' s with
    | none => exact extract_of_firstIdx_none hfi
    | some i =>
      rw [extract_of_firstIdx_some hfi, if_neg]
      intro hc
      rw [h] at hc
      exact absurd hc.1 (by simp)

/-- Witness for the payload-mime invariant at the concrete SVG run. -/
theorem result_mime_from_payload_witness :
    ({ dataUrl := envSvgRun.fileDataUrl, mime := extractMimeFromDataUrl envSvgRun.fileDataUrl,
       sizeBytes := estimateBase64SizeBytes envSvgRun.fileDataUrl,
       width := none, height := none, fileName := fileSvg.name } : ConvertResult).mime =
      extractMimeFromDataUrl
        ({ dataUrl := envSvgRun.fileDataUrl, mime := extractMimeFromDataUrl envSvgRun.fileDataUrl,
           sizeBytes := estimateBase64SizeBytes envSvgRun.fileDataUrl,
           width := none, height := none, fileName := fileSvg.name } : ConvertResult).dataUrl :=
  result_mime_from_payload.1 ℕ envSvgRun fileSvg {}
    { dataUrl := envSvgRun.fileDataUrl, mime := extractMimeFromDataUrl envSvgRun.fileDataUrl,
      sizeBytes := estimateBase64SizeBytes envSvgRun.fileDataUrl,
      width := none, height := none, fileName := fileSvg.name } (by decide)

/-- Claim C8, counterexample: with an empty source mime and an unrecognized target,
the resolver returns the octet-stream type, not the (empty) source mime. -/
theorem normalizeTargetMime_empty_source_counterexample :
    normalizeTargetMime [] (some "bmp".data) = "application/octet-stream".data ∧
      normalizeTargetMime [] (some "bmp".data) ≠ ([] : JStr) := by
  decide

/-- Claim C8, amended: the resolver's full case analysis, with the octet-stream
fallback applied to the empty source mime on the unrecognized branch too. -/
theorem normalizeTargetMime_cases :
    ∀ (m : JStr) (t : Option JStr),
      ((t = none ∨ t = some "original".data ∨ t = some "base64".data) →
        normalizeTargetMime m t =
          (if m = [] then "application/octet-stream".data else m)) ∧
      normalizeTargetMime m (some "png".data) = "image/png".data ∧
      normalizeTargetMime m (some "jpeg".data) = "image/jpeg".data ∧
      normalizeTargetMime m (some "webp".data) = "image/webp".data ∧
      normalizeTargetMime m (some "svg".data) = "image/svg+xml".data ∧
      (∀ s : JStr, s ≠ "original".data → s ≠ "base64".data → s ≠ "png".data →
        s ≠ "jpeg".data → s ≠ "webp".data → s ≠ "svg".data →
        normalizeTargetMime m (some s) =
          (if m = [] then "application/octet-stream".data else m)) := by
  intro m t
  refine ⟨?_, ?_, ?_, ?_, ?_, ?_⟩
  · intro h
    unfold normalizeTargetMime orOctetStream
    rcases h with h | h | h
    · rw [if_pos (show isFalsyStr t ∨ t = some "original".data ∨ t = some "base64".data from
        Or.inl (Or.inl h))]
    · rw [if_pos (show isFalsyStr t ∨ t = some "original".data ∨ t = some "base64".data from
        Or.inr (Or.inl h))]
    · rw [if_pos (show isFalsyStr t ∨ t = some "original".data ∨ t = some "base64".data from
        Or.inr (Or.inr h))]
  · unfold normalizeTargetMime
    rw [if_neg (by decide), if_pos rfl]
  · unfold normalizeTargetMime
    rw [if_neg (by decide), if_neg (by decide), if_pos rfl]
  · unfold normalizeTargetMime
    rw [if_neg (by decide), if_neg (by decide), if_neg (by decide), if_pos rfl]
  · unfold normalizeTargetMime
    rw [if_neg (by decide), if_neg (by decide), if_neg (by decide), if_neg (by decide),
      if_pos rfl]
  · intro s h1 h2 h3 h4 h5 h6
    unfold normalizeTargetMime orOctetStream
    by_cases hs : s = []
    · subst hs
      rw [if_pos (show isFalsyStr (some ([] : JStr)) ∨ some ([] : JStr) = some "original".data ∨
          some ([] : JStr) = some "base64".data from Or.inl (Or.inr rfl))]
    · have hfal : ¬isFalsyStr (some s) := by simp [isFalsyStr, hs]
      rw [if_neg (by
        rintro (h | h | h)
        exacts [hfal h, h1 (Option.some.inj h), h2 (Option.some.inj h)])]
      rw [if_neg (fun hh => h3 (Option.some.inj hh)),
        if_neg (fun hh => h4 (Option.some.inj hh)),
        if_neg (fun hh => h5 (Option.some.inj hh)),
        if_neg (fun hh => h6 (Option.some.inj hh))]

/-- Witness for the resolver case analysis on an unrecognized target. -/
theorem normalizeTargetMime_cases_witness :
    normalizeTargetMime "image/gif".data (some "bmp".data) =
      (if "image/gif".data = ([] : JStr) then "application/octet-stream".data
       else "image/gif".data) :=
  (normalizeTargetMime_cases "image/gif".data (some "bmp".data)).2.2.2.2.2 "bmp".data
    (by decide) (by decide) (by decide) (by decide) (by decide) (by decide)

/-- A concrete environment for the jpeg-source default run. -/
def envJpegRun : Env ℕ where
  fileDataUrl := "data:image/jpeg;base64,AAAA".data
  decodePrimary := Except.ok ⟨4, 2⟩
  domAvailable := true
  decodeFallback := Except.ok ⟨4, 2⟩
  encode := fun _ _ => "data:image/jpeg;base64,BBBB".data

/-- A concrete jpeg input file. -/
def fileJpeg : JsFile := ⟨"a.jpg".data, "image/jpeg".data⟩

/-- Claim C1 (code bug in the source): with a jpeg source, target format unset and no resize, the run does
NOT take the passthrough path: because the requested mime normalizes to the
source's own image/jpeg, the needs-canvas test fires and the file is decoded,
drawn and re-encoded (the result carries output dimensions). -/
theorem jpeg_default_takes_render_path :
    convertFileToBase64 envJpegRun fileJpeg {} =
      (Except.ok
        { dataUrl := "data:image/jpeg;base64,BBBB".data, mime := "image/jpeg".data,
          sizeBytes := 3, width := some 4, height := some 2, fileName := "a.jpg".data },
       [Effect.decodePrimary, Effect.fillBackground "#ffffff".data,
        Effect.drawImage 0 0 4 2 4 2, Effect.encode "image/jpeg".data 0.92]) ∧
      convertFileToBase64 envJpegRun fileJpeg {} ≠ passthroughPair envJpegRun fileJpeg := by
  decide

end PicMe
